import Mathlib

/-!
Verification of the image background-removal app (src/app.py).

The pipeline core is embedded shallowly: an image is a width times height
grid of RGBA pixels stored as a flat list (PIL getdata order), and each
relevant function of app.py is translated into a pure Lean definition.
Channel values are natural numbers; every pixel produced by PIL convert
to RGBA has channels in [0,255], and the embedded operations only ever
copy channels or write the constant 255, so no modular arithmetic arises.
-/

/-- One RGBA pixel, as produced by PIL convert to RGBA: item[0..3] are
red, green, blue, alpha. -/
structure Pixel where
  r : Nat
  g : Nat
  b : Nat
  a : Nat
deriving DecidableEq

/-- An RGB color triple, the `color` argument of replace_background_color. -/
structure RGBColor where
  r : Nat
  g : Nat
  b : Nat
deriving DecidableEq

/-- An image: width, height and the flat pixel list returned by getdata. -/
structure Img where
  width : Nat
  height : Nat
  data : List Pixel
deriving DecidableEq

/-- app.py line 16: MAX_FILE_SIZE = 10 * 1024 * 1024. -/
def MAX_FILE_SIZE : Nat := 10 * 1024 * 1024

/-- app.py lines 30-34, check_file_size: the argument is the length of
file.getbuffer(); returns False when it exceeds MAX_FILE_SIZE, True
otherwise (the st.error call is presentation only). -/
def check_file_size (file_len : Nat) : Bool :=
  if file_len > MAX_FILE_SIZE then false else true

/-- The loop body of app.py lines 51-56: a transparent pixel (alpha 0)
becomes the given color with alpha 255 appended; any other pixel is
kept as is. -/
def replacePixel (color : RGBColor) (item : Pixel) : Pixel :=
  if item.a = 0 then { r := color.r, g := color.g, b := color.b, a := 255 } else item

/-- app.py lines 45-60, replace_background_color, on the decoded image:
the input is converted to RGBA (identity on an RGBA image), every pixel
runs through the loop of lines 51-56, and putdata writes the new list
back without touching the size. -/
def replace_background_color (image : Img) (color : RGBColor) : Img :=
  { image with data := image.data.map (replacePixel color) }

lemma replacePixel_idem (color : RGBColor) (p : Pixel) :
    replacePixel color (replacePixel color p) = replacePixel color p := by
  unfold replacePixel
  by_cases h : p.a = 0 <;> simp [h]

lemma replacePixel_alpha_ne_zero (color : RGBColor) (p : Pixel) :
    (replacePixel color p).a ≠ 0 := by
  unfold replacePixel
  by_cases h : p.a = 0 <;> simp [h]

lemma map_replacePixel_idem (color : RGBColor) :
    ∀ l : List Pixel, (l.map (replacePixel color)).map (replacePixel color)
      = l.map (replacePixel color) := by
  intro l
  induction l with
  | nil => rfl
  | cons p tl ih => simp [List.map_cons, replacePixel_idem, ih]

/-- Claim C1: replace_background_color maps each pixel whose alpha is 0 to
the given color with alpha 255, and leaves every pixel with nonzero alpha
(including partially transparent ones) bit-for-bit unchanged. -/
theorem C1_replace_background_color_pixelwise
    (color : RGBColor) (img : Img) (i : Nat) (p : Pixel)
    (h : img.data[i]? = some p) :
    (p.a = 0 → (replace_background_color img color).data[i]?
        = some { r := color.r, g := color.g, b := color.b, a := 255 }) ∧
    (p.a ≠ 0 → (replace_background_color img color).data[i]? = some p) := by
  constructor
  · intro ha
    simp [replace_background_color, List.getElem?_map, h, replacePixel, ha]
  · intro ha
    simp [replace_background_color, List.getElem?_map, h, replacePixel, ha]

/-- A concrete two-pixel image used to witness the compositor theorems. -/
def wimg : Img :=
  { width := 2, height := 1, data := [⟨10, 20, 30, 0⟩, ⟨1, 2, 3, 128⟩] }

/-- The concrete color used to witness the compositor theorems. -/
def wcolor : RGBColor := ⟨5, 6, 7⟩

/-- Witness for C1 on a concrete image: the transparent pixel becomes the
color with alpha 255 and the partially transparent pixel is unchanged. -/
theorem C1_witness :
    (replace_background_color wimg wcolor).data[0]? = some ⟨5, 6, 7, 255⟩ ∧
    (replace_background_color wimg wcolor).data[1]? = some ⟨1, 2, 3, 128⟩ :=
  ⟨(C1_replace_background_color_pixelwise wcolor wimg 0 ⟨10, 20, 30, 0⟩ (by decide)).1
      (by decide),
   (C1_replace_background_color_pixelwise wcolor wimg 1 ⟨1, 2, 3, 128⟩ (by decide)).2
      (by decide)⟩

/-- Claim C2: applying replace_background_color twice with the same color
gives the same pixel data as applying it once; after the first pass no
pixel has alpha 0, so the second pass changes nothing. -/
theorem C2_replace_background_color_idempotent
    (img : Img) (color : RGBColor) :
    replace_background_color (replace_background_color img color) color
      = replace_background_color img color := by
  cases img with
  | mk w h d =>
    simp only [replace_background_color]
    exact congrArg (Img.mk w h) (map_replacePixel_idem color d)

/-- Claim C9: no pixel of the output of replace_background_color has
alpha 0; replaced pixels get alpha 255 and all others kept their nonzero
alpha. -/
theorem C9_output_has_no_transparent_pixel
    (color : RGBColor) (img : Img) (p : Pixel)
    (h : p ∈ (replace_background_color img color).data) : p.a ≠ 0 := by
  simp only [replace_background_color, List.mem_map] at h
  obtain ⟨q, _, rfl⟩ := h
  exact replacePixel_alpha_ne_zero color q

/-- Witness for C9 at a concrete output pixel of the witness image. -/
theorem C9_witness : (⟨5, 6, 7, 255⟩ : Pixel).a ≠ 0 :=
  C9_output_has_no_transparent_pixel wcolor wimg ⟨5, 6, 7, 255⟩ (by decide)

/-- Claim C10: replace_background_color keeps the width, the height and
the number of pixels of its input; only channel values may change. -/
theorem C10_replace_background_color_preserves_dimensions
    (img : Img) (color : RGBColor) :
    (replace_background_color img color).width = img.width ∧
    (replace_background_color img color).height = img.height ∧
    (replace_background_color img color).data.length = img.data.length := by
  refine ⟨rfl, rfl, ?_⟩
  simp [replace_background_color]

/-- Claim C4: check_file_size accepts exactly 10 MiB and rejects
10 MiB + 1; in general it returns true iff the buffer length is at most
10 * 1024 * 1024 bytes. -/
theorem C4_check_file_size_boundary :
    (∀ n : Nat, check_file_size n = true ↔ n ≤ 10 * 1024 * 1024) ∧
    check_file_size (10 * 1024 * 1024) = true ∧
    check_file_size (10 * 1024 * 1024 + 1) = false := by
  refine ⟨?_, by decide, by decide⟩
  intro n
  simp [check_file_size, MAX_FILE_SIZE]

/-- One hex digit as Python int(d, 16) reads it: 0-9, a-f, A-F. -/
def hexVal (c : Char) : Nat :=
  if '0' ≤ c ∧ c ≤ '9' then c.toNat - '0'.toNat
  else if 'a' ≤ c ∧ c ≤ 'f' then c.toNat - 'a'.toNat + 10
  else if 'A' ≤ c ∧ c ≤ 'F' then c.toNat - 'A'.toNat + 10
  else 0

/-- Python int(s[i:i+2], 16) on a hex color string. -/
def hexPair (s : String) (i : Nat) : Nat :=
  16 * hexVal (s.toList.getD i '0') + hexVal (s.toList.getD (i + 1) '0')

/-- app.py line 130: tuple(int(bg_color[i:i+2], 16) for i in (1, 3, 5)),
the RGB triple read from the picked hex string. -/
def parse_bg_color (s : String) : RGBColor :=
  ⟨hexPair s 1, hexPair s 3, hexPair s 5⟩

/-- app.py lines 129-133: when the picked color string differs from the
default "#FFFFFF", replace_background_color runs on the segmented image;
when it equals "#FFFFFF" the final artifact is the segmented image
untouched. -/
def composite_step (bg_color : String) (segmented : Img) : Img :=
  if bg_color ≠ "#FFFFFF" then
    replace_background_color segmented (parse_bg_color bg_color)
  else segmented

/-- Claim C3: with the default opaque-white sentinel the compositing step
is skipped and the final artifact is exactly the segmented image with its
transparency intact; compositing runs only when the selected color
differs from the sentinel. -/
theorem C3_default_color_skips_compositing (bg_color : String) (segmented : Img) :
    (bg_color = "#FFFFFF" → composite_step bg_color segmented = segmented) ∧
    (bg_color ≠ "#FFFFFF" → composite_step bg_color segmented
        = replace_background_color segmented (parse_bg_color bg_color)) := by
  constructor <;> intro h <;> simp [composite_step, h]

/-- Witness for C3: the sentinel leaves the witness image untouched and a
green pick composites it. -/
theorem C3_witness :
    composite_step "#FFFFFF" wimg = wimg ∧
    composite_step "#00FF00" wimg
      = replace_background_color wimg (parse_bg_color "#00FF00") :=
  ⟨(C3_default_color_skips_compositing "#FFFFFF" wimg).1 (by decide),
   (C3_default_color_skips_compositing "#00FF00" wimg).2 (by decide)⟩

/-- Python str.split with separator dot, on the character list of the
string: the empty string yields one empty piece, every dot starts a new
piece, so the result is always nonempty and its first element is the
text before the first dot. -/
def pySplitDot : List Char → List (List Char)
  | [] => [[]]
  | c :: cs =>
    if c = '.' then [] :: pySplitDot cs
    else
      match pySplitDot cs with
      | [] => [[c]]
      | piece :: more => (c :: piece) :: more

lemma pySplitDot_ne_nil (cs : List Char) : pySplitDot cs ≠ [] := by
  cases cs with
  | nil => simp [pySplitDot]
  | cons c tl =>
    by_cases h : c = '.'
    · simp [pySplitDot, h]
    · simp only [pySplitDot, if_neg h]
      cases pySplitDot tl <;> simp

lemma pySplitDot_headD (cs : List Char) :
    (pySplitDot cs).headD [] = cs.takeWhile (fun c => c != '.') := by
  induction cs with
  | nil => rfl
  | cons c tl ih =>
    by_cases h : c = '.'
    · subst h
      simp [pySplitDot]
    · cases htl : pySplitDot tl with
      | nil => exact absurd htl (pySplitDot_ne_nil tl)
      | cons piece more =>
        rw [htl] at ih
        simp only [List.headD_cons] at ih
        simp [pySplitDot, h, htl, List.takeWhile_cons, ih]

/-- app.py line 117: rembg_img_name = filename.split(".")[0] + "_rembg.png",
computed on the sanitized upload name. -/
def rembg_img_name (filename : String) : String :=
  String.mk ((pySplitDot filename.toList).headD []) ++ "_rembg.png"

/-- Modelled from the spec: the base name of the source file, the name
with its extension removed, i.e. everything before the last dot, or the
whole name when it has no dot. Written from the words of the spec for
comparison with rembg_img_name. -/
def spec_base_name (filename : String) : String :=
  if '.' ∈ filename.toList then
    String.mk (((filename.toList.reverse.dropWhile (fun c => c != '.')).drop 1).reverse)
  else filename

/-- Counterexample to claim C6: for the upload name a.b.jpg (sanitized to
itself) the code delivers a_rembg.png, built from the text before the
first dot, while the base name with the extension removed is a.b, so the
claimed filename would be a.b_rembg.png. -/
theorem C6_counterexample :
    rembg_img_name "a.b.jpg" = "a_rembg.png" ∧
    spec_base_name "a.b.jpg" ++ "_rembg.png" = "a.b_rembg.png" ∧
    rembg_img_name "a.b.jpg" ≠ spec_base_name "a.b.jpg" ++ "_rembg.png" :=
  ⟨by decide, by decide, by decide⟩

lemma takeWhile_dotfree_append (rest stem : List Char) (h : '.' ∉ stem) :
    (stem ++ '.' :: rest).takeWhile (fun c => c != '.') = stem := by
  induction stem with
  | nil => simp [List.takeWhile_cons]
  | cons c tl ih =>
    have hc : (c != '.') = true := by
      simp only [List.mem_cons, not_or] at h
      simp [bne_iff_ne]
      exact fun hc => h.1 hc.symm
    have htl : '.' ∉ tl := by
      simp only [List.mem_cons, not_or] at h
      exact h.2
    simp [List.cons_append, List.takeWhile_cons, hc, ih htl]

lemma dropWhile_dotfree_append (rest l : List Char) (h : '.' ∉ l) :
    (l ++ '.' :: rest).dropWhile (fun c => c != '.') = '.' :: rest := by
  induction l with
  | nil => simp [List.dropWhile_cons]
  | cons c tl ih =>
    have hc : (c != '.') = true := by
      simp only [List.mem_cons, not_or] at h
      simp [bne_iff_ne]
      exact fun hc => h.1 hc.symm
    have htl : '.' ∉ tl := by
      simp only [List.mem_cons, not_or] at h
      exact h.2
    simp [List.cons_append, List.dropWhile_cons, hc, ih htl]

/-- Claim C6 amended: the delivered filename is the part of the sanitized
upload name before the FIRST dot followed by the fixed suffix _rembg.png,
so the original claim holds exactly when the stem before the extension
contains no dot; the name always ends in .png (PNG output format). -/
theorem C6_amended_filename_before_first_dot
    (stem extn : List Char) (hstem : '.' ∉ stem) (hext : '.' ∉ extn) :
    rembg_img_name (String.mk (stem ++ '.' :: extn))
      = String.mk stem ++ "_rembg.png" ∧
    spec_base_name (String.mk (stem ++ '.' :: extn)) = String.mk stem ∧
    (∀ f : String, (rembg_img_name f).toList
        = f.toList.takeWhile (fun c => c != '.') ++ "_rembg.png".toList) ∧
    (∀ f : String, ".png".toList <:+ (rembg_img_name f).toList) := by
  have hgen : ∀ f : String, (rembg_img_name f).toList
      = f.toList.takeWhile (fun c => c != '.') ++ "_rembg.png".toList := by
    intro f
    show (rembg_img_name f).data = _
    rw [rembg_img_name, String.data_append, pySplitDot_headD]
    rfl
  refine ⟨?_, ?_, hgen, ?_⟩
  · rw [rembg_img_name]
    have : (String.mk (stem ++ '.' :: extn)).toList = stem ++ '.' :: extn := rfl
    rw [this, pySplitDot_headD, takeWhile_dotfree_append extn stem hstem]
  · rw [spec_base_name]
    have hmem : '.' ∈ (String.mk (stem ++ '.' :: extn)).toList := by
      show '.' ∈ stem ++ '.' :: extn
      simp
    rw [if_pos hmem]
    have hrev : (String.mk (stem ++ '.' :: extn)).toList.reverse
        = extn.reverse ++ '.' :: stem.reverse := by
      show (stem ++ '.' :: extn).reverse = _
      simp
    rw [hrev, dropWhile_dotfree_append stem.reverse extn.reverse
      (by simpa using hext)]
    simp
  · intro f
    refine ⟨f.toList.takeWhile (fun c => c != '.') ++ "_rembg".toList, ?_⟩
    rw [hgen f, List.append_assoc]
    congr 1

/-- Witness for the amended C6 at the concrete upload name photo.jpg. -/
theorem C6_witness :
    rembg_img_name (String.mk ("photo".toList ++ '.' :: "jpg".toList))
      = String.mk "photo".toList ++ "_rembg.png" ∧
    spec_base_name (String.mk ("photo".toList ++ '.' :: "jpg".toList))
      = String.mk "photo".toList :=
  ⟨(C6_amended_filename_before_first_dot "photo".toList "jpg".toList
      (by decide) (by decide)).1,
   (C6_amended_filename_before_first_dot "photo".toList "jpg".toList
      (by decide) (by decide)).2.1⟩

/-- The two errors PIL Image.crop itself raises on an inverted crop box,
embedding the ValueError checks of Pillow. The InvalidGeometryError of
the spec has no counterpart anywhere in app.py. -/
inductive PilCropError where
  | rightLessThanLeft
  | lowerLessThanUpper
deriving DecidableEq

/-- The pixel of img at column x, row y in getdata order. -/
def pixelAt (img : Img) (x y : Nat) : Pixel :=
  img.data.getD (y * img.width + x) ⟨0, 0, 0, 0⟩

/-- PIL Image.crop on the box (left, upper, right, lower): it raises when
the box is inverted (right before left, or lower before upper), and
otherwise returns the (right - left) times (lower - upper) region,
zero-filling where the box extends beyond the source. A box with
left = right or upper = lower yields an empty image with no error. -/
def pil_crop (img : Img) (left upper right lower : Nat) : Except PilCropError Img :=
  if right < left then Except.error PilCropError.rightLessThanLeft
  else if lower < upper then Except.error PilCropError.lowerLessThanUpper
  else Except.ok
    { width := right - left
      height := lower - upper
      data := (List.range (lower - upper)).flatMap (fun y =>
        (List.range (right - left)).map (fun x =>
          if left + x < img.width ∧ upper + y < img.height then
            pixelAt img (left + x) (upper + y)
          else ⟨0, 0, 0, 0⟩)) }

/-- app.py lines 97-104: when cropping is enabled the sliders yield left
and right in [0, width] and upper and lower in [0, height] of the rotated
image, and image_resized.crop((left, upper, right, lower)) is applied
with no further validation. -/
def crop_step (img : Img) (left upper right lower : Nat) : Except PilCropError Img :=
  pil_crop img left upper right lower

/-- The width and height of a crop result, none on a library error. -/
def cropResultDims : Except PilCropError Img → Option (Nat × Nat)
  | Except.ok out => some (out.width, out.height)
  | Except.error _ => none

/-- A concrete 2 x 2 image used for the crop and batch scenarios. -/
def cimg : Img :=
  { width := 2, height := 2
    data := [⟨1, 1, 1, 255⟩, ⟨2, 2, 2, 255⟩, ⟨3, 3, 3, 255⟩, ⟨4, 4, 4, 255⟩] }

/-- Counterexample to claim C5: the in-bounds box (0, 0, 0, 2) on a 2 x 2
image has width 0 after any clamping, yet the crop succeeds and silently
returns a degenerate empty image instead of failing; no
InvalidGeometryError exists in the code. -/
theorem C5_counterexample :
    crop_step cimg 0 0 0 2 = Except.ok { width := 0, height := 2, data := [] } :=
  rfl

/-- Claim C5 amended: the only clamping is the slider ranges themselves;
every non-inverted box is cropped successfully, including degenerate
boxes with left = right or upper = lower which yield a width or height of
0, and the only failures are the two library errors on inverted boxes,
not an InvalidGeometryError. -/
theorem C5_amended_crop_never_rejects_degenerate
    (img : Img) (left upper right lower : Nat) :
    (left ≤ right → upper ≤ lower →
      cropResultDims (crop_step img left upper right lower)
        = some (right - left, lower - upper)) ∧
    (right < left → crop_step img left upper right lower
        = Except.error PilCropError.rightLessThanLeft) ∧
    (left ≤ right → lower < upper → crop_step img left upper right lower
        = Except.error PilCropError.lowerLessThanUpper) := by
  refine ⟨?_, ?_, ?_⟩
  · intro h1 h2
    rw [crop_step, pil_crop, if_neg (by omega), if_neg (by omega)]
    rfl
  · intro h
    rw [crop_step, pil_crop, if_pos h]
  · intro h1 h2
    rw [crop_step, pil_crop, if_neg (by omega), if_pos (by omega)]

/-- Witness for the amended C5: a degenerate box succeeds with width 0,
and the two inverted boxes hit the two library errors. -/
theorem C5_witness :
    cropResultDims (crop_step cimg 0 0 0 2) = some (0, 2) ∧
    crop_step cimg 1 0 0 2 = Except.error PilCropError.rightLessThanLeft ∧
    crop_step cimg 0 2 2 0 = Except.error PilCropError.lowerLessThanUpper :=
  ⟨(C5_amended_crop_never_rejects_degenerate cimg 0 0 0 2).1 (by decide) (by decide),
   (C5_amended_crop_never_rejects_degenerate cimg 1 0 0 2).2.1 (by decide),
   (C5_amended_crop_never_rejects_degenerate cimg 0 2 2 0).2.2 (by decide) (by decide)⟩

/-- One uploaded file as the loop of app.py lines 71-145 sees it: its
name, the byte size of its buffer, whether the external segmentation
capability raises on it (SegmentationError), and whether its
remove-background button was pressed in this script run. -/
structure UploadedFile where
  name : String
  size : Nat
  segFails : Bool
  pressed : Bool
deriving DecidableEq

/-- One script run of the upload loop, app.py lines 70-145: a size-check
failure skips to the next file via continue; otherwise, when the button
of that file is pressed, segmentation runs, and an exception there
propagates out of main and ends the whole run. The result is the list of
delivered output names in order, plus whether the run was aborted by an
exception. -/
def run_batch : List UploadedFile → List String × Bool
  | [] => ([], false)
  | f :: fs =>
    if check_file_size f.size = false then run_batch fs
    else if f.pressed = true then
      if f.segFails = true then ([], true)
      else (rembg_img_name f.name :: (run_batch fs).1, (run_batch fs).2)
    else run_batch fs

/-- A file whose segmentation raises, with its button pressed. -/
def cfileSegFail : UploadedFile := ⟨"a.jpg", 100, true, true⟩

/-- A well-behaved file, within the size limit, button pressed. -/
def cfileOk : UploadedFile := ⟨"b.jpg", 100, false, true⟩

/-- A file one byte over the 10 MiB limit. -/
def cfileTooBig : UploadedFile := ⟨"c.jpg", 10485761, false, true⟩

/-- Counterexample to claim C7: in the batch [cfileSegFail, cfileOk] the
second file is within the size limit and segments fine, yet nothing is
delivered, because the segmentation exception on the first file aborts
the run before the second file is processed. -/
theorem C7_counterexample :
    check_file_size cfileOk.size = true ∧ cfileOk.segFails = false ∧
    run_batch [cfileSegFail, cfileOk] = ([], true) :=
  ⟨by decide, by decide, by decide⟩

lemma run_batch_skip (f : UploadedFile) (hf : check_file_size f.size = false) :
    ∀ pre post : List UploadedFile,
      run_batch (pre ++ f :: post) = run_batch (pre ++ post) := by
  intro pre
  induction pre with
  | nil =>
    intro post
    simp [run_batch, hf]
  | cons g gs ih =>
    intro post
    simp only [List.cons_append, run_batch, List.append_eq]
    rw [ih post]

lemma run_batch_abort (f : UploadedFile) (hsize : check_file_size f.size = true)
    (hp : f.pressed = true) (hs : f.segFails = true) :
    ∀ pre post : List UploadedFile, (run_batch pre).2 = false →
      run_batch (pre ++ f :: post) = ((run_batch pre).1, true) := by
  intro pre
  induction pre with
  | nil =>
    intro post _
    simp [run_batch, hsize, hp, hs]
  | cons g gs ih =>
    intro post hpre
    by_cases h1 : check_file_size g.size = false
    · have e : run_batch (g :: gs) = run_batch gs := by
        simp [run_batch, h1]
      rw [e] at hpre
      have el : run_batch (g :: (gs ++ f :: post)) = run_batch (gs ++ f :: post) := by
        simp [run_batch, h1]
      rw [List.cons_append, el, ih post hpre, e]
    · by_cases h2 : g.pressed = true
      · by_cases h3 : g.segFails = true
        · exfalso
          have e : run_batch (g :: gs) = ([], true) := by
            simp [run_batch, h1, h2, h3]
          rw [e] at hpre
          simp at hpre
        · have e : run_batch (g :: gs)
              = (rembg_img_name g.name :: (run_batch gs).1, (run_batch gs).2) := by
            simp [run_batch, h1, h2, h3]
          rw [e] at hpre
          simp only at hpre
          have el : run_batch (g :: (gs ++ f :: post))
              = (rembg_img_name g.name :: (run_batch (gs ++ f :: post)).1,
                 (run_batch (gs ++ f :: post)).2) := by
            simp [run_batch, h1, h2, h3]
          rw [List.cons_append, el, ih post hpre, e]
      · have e : run_batch (g :: gs) = run_batch gs := by
          simp [run_batch, h1, h2]
        rw [e] at hpre
        have el : run_batch (g :: (gs ++ f :: post)) = run_batch (gs ++ f :: post) := by
          simp [run_batch, h1, h2]
        rw [List.cons_append, el, ih post hpre, e]

/-- Claim C7 amended: a size rejection on one file skips only that file
and leaves the rest of the batch exactly as if the file were absent; but
a segmentation exception is not handled per file: it aborts the run, so
files delivered before it stay delivered and every file after it is not
processed at all. -/
theorem C7_amended_failure_isolation
    (pre post : List UploadedFile) (f : UploadedFile) :
    (check_file_size f.size = false →
      run_batch (pre ++ f :: post) = run_batch (pre ++ post)) ∧
    (check_file_size f.size = true → f.pressed = true → f.segFails = true →
      (run_batch pre).2 = false →
      run_batch (pre ++ f :: post) = ((run_batch pre).1, true)) :=
  ⟨fun h => run_batch_skip f h pre post,
   fun h1 h2 h3 h4 => run_batch_abort f h1 h2 h3 pre post h4⟩

/-- Witness for the amended C7: an oversized middle file is skipped with
the rest of the batch intact, while a segmentation failure in the middle
keeps the earlier delivery and drops the later file. -/
theorem C7_witness :
    run_batch ([cfileOk] ++ cfileTooBig :: [cfileOk])
      = run_batch ([cfileOk] ++ [cfileOk]) ∧
    run_batch ([cfileOk] ++ cfileSegFail :: [cfileOk])
      = ((run_batch [cfileOk]).1, true) :=
  ⟨(C7_amended_failure_isolation [cfileOk] [cfileOk] cfileTooBig).1 (by decide),
   (C7_amended_failure_isolation [cfileOk] [cfileOk] cfileSegFail).2
      (by decide) (by decide) (by decide) (by decide)⟩

/-- Raw bytes of an image file in working storage. -/
abbrev Content := List Nat

/-- Association lookup, as a dict or cache lookup by exact key. -/
def lookupKey {α β : Type} [DecidableEq α] : List (α × β) → α → Option β
  | [], _ => none
  | (k, v) :: rest, key => if k = key then some v else lookupKey rest key

/-- The state the cached remove_background touches: the working files by
path, the st.cache_data entries, and a count of how many times the body
of the function actually ran. st.cache_data keys an entry by the values
of the function arguments, which here are the two path strings; the file
contents never enter the key. -/
structure SessionState where
  fs : List (String × Content)
  cache : List ((String × String) × String)
  computeCount : Nat
deriving DecidableEq

/-- Writing a file into working storage at a path. -/
def writeFile (s : SessionState) (path : String) (content : Content) : SessionState :=
  { s with fs := (path, content) :: s.fs }

/-- app.py lines 37-42, remove_background under st.cache_data, with the
external rembg remove call abstracted as segment: on a cache hit for the
argument pair the memoized return value comes back and the body never
runs; on a miss the body opens the input path, segments it, saves the
result at the output path, caches the return value under the argument
pair and returns the output path. -/
def remove_background (segment : Content → Content) (s : SessionState)
    (input_path output_path : String) : SessionState × String :=
  match lookupKey s.cache (input_path, output_path) with
  | some v => (s, v)
  | none =>
    let out := segment ((lookupKey s.fs input_path).getD [])
    ({ fs := (output_path, out) :: s.fs
       cache := ((input_path, output_path), output_path) :: s.cache
       computeCount := s.computeCount + 1 }, output_path)

/-- A concrete segmentation capability for the cache scenario. -/
def csegment : Content → Content := fun c => 0 :: c

/-- Initial state of the cache scenario: one input file, empty cache. -/
def cstate0 : SessionState := ⟨[("in.png", [1])], [], 0⟩

/-- State after the first remove_background call of the scenario. -/
def cstate1 : SessionState := (remove_background csegment cstate0 "in.png" "out.png").1

/-- The scenario state after the input file is overwritten with new
content at the same path. -/
def cstate2 : SessionState := writeFile cstate1 "in.png" [2]

/-- Counterexample to claim C8: after the input content at in.png changes
from [1] to [2], a second call with the same path arguments is a pure
cache hit: the body does not run again (the compute count stays 1) and
the stored output is still the segmentation of the old content, not of
the new one, so different input content does not invalidate the cache. -/
theorem C8_counterexample :
    lookupKey cstate2.fs "in.png" = some [2] ∧
    (remove_background csegment cstate2 "in.png" "out.png").1.computeCount
      = cstate2.computeCount ∧
    cstate2.computeCount = 1 ∧
    lookupKey (remove_background csegment cstate2 "in.png" "out.png").1.fs "out.png"
      = some [0, 1] ∧
    csegment [2] ≠ [0, 1] :=
  ⟨by decide, by decide, by decide, by decide, by decide⟩

/-- Claim C8 amended: st.cache_data keys remove_background by its
argument values, the two path strings, not by file content: an uncached
call runs the body once and returns the output path, and any later call
with the same path arguments is a pure cache hit that leaves the state
untouched and returns the cached path, even after the input file was
overwritten with arbitrary new content. -/
theorem C8_amended_cache_keyed_by_paths
    (segment : Content → Content) (s : SessionState)
    (input_path output_path : String) (newContent : Content)
    (h : lookupKey s.cache (input_path, output_path) = none) :
    (remove_background segment s input_path output_path).1.computeCount
      = s.computeCount + 1 ∧
    (remove_background segment s input_path output_path).2 = output_path ∧
    remove_background segment
        (writeFile (remove_background segment s input_path output_path).1
          input_path newContent)
        input_path output_path
      = (writeFile (remove_background segment s input_path output_path).1
          input_path newContent, output_path) := by
  refine ⟨?_, ?_, ?_⟩
  · rw [remove_background, h]
  · rw [remove_background, h]
  · simp [remove_background, h, writeFile, lookupKey]

/-- Witness for the amended C8 at the concrete cache scenario. -/
theorem C8_witness :
    (remove_background csegment cstate0 "in.png" "out.png").1.computeCount
      = cstate0.computeCount + 1 ∧
    (remove_background csegment cstate0 "in.png" "out.png").2 = "out.png" ∧
    remove_background csegment
        (writeFile (remove_background csegment cstate0 "in.png" "out.png").1
          "in.png" [2])
        "in.png" "out.png"
      = (writeFile (remove_background csegment cstate0 "in.png" "out.png").1
          "in.png" [2], "out.png") :=
  C8_amended_cache_keyed_by_paths csegment cstate0 "in.png" "out.png" [2] (by decide)
